import Mathlib

/-!
Verification development for the lipana-tps gateway.

Entry path (`app/models.py`, `app/routes/entry.py`): the payload
transformer `SimpleTransactionRequest.to_pacs008` / `to_pacs002` and the
submission orchestrator `evaluate_simple` are embedded as pure Lean
functions.  Nondeterministic ingredients of the Python code are made
explicit parameters: the uuid4 generator becomes a supply `u : Nat → String`
consumed at increasing indices in source order, and `datetime.utcnow()`
becomes a `now : String` argument.  Python `or` on optional strings treats
the empty string as falsy, which the embedding reproduces.  Monetary
amounts (Python `float`, only ever copied, never computed with) are
modelled as rationals.

Exit path (`app/database.py`): the PostgreSQL databases are modelled as
values — a list of base tables in the public schema plus, per table name,
the rows it holds.  The `messageid` column is modelled as a natural
number carrying the order `ORDER BY "messageid"` sorts by.  A connection
is `Except Unit DB`: `.error` stands for any psycopg2 exception (these
are caught by the source's `try/except` blocks).  The process-wide
`_eval_table_name` / `_eval_table_found` globals become an explicit
`EvalCache` state threaded through the query functions.
-/

namespace Lipana

/-- pacs.002 charge entry: amount, currency and the agent's member id
(`Agt.FinInstnId.ClrSysMmbId.MmbId`). -/
structure ChargeInfo where
  Amt : Rat
  Ccy : String
  Agt : String
deriving DecidableEq, Repr

/-- The fields of the pacs.008 (credit transfer) document built by
`SimpleTransactionRequest.to_pacs008`, flattened: nested ISO 20022 path
components keep their leaf names.  Constant synthetic identity blocks
(names, birth dates, contact numbers, geo location) are fixed literals in
the source and are represented by the generated identifiers they carry. -/
structure Pacs008Doc where
  TxTp : String
  MsgId : String
  CreDtTm : String
  NbOfTxs : Nat
  SttlmMtd : String
  InstrId : String
  EndToEndId : String
  IntrBkSttlmAmt : Rat
  IntrBkSttlmCcy : String
  InstdAmt : Rat
  InstdCcy : String
  XchgRate : String
  ChrgBr : String
  ChrgsInfAmt : Rat
  ChrgsInfCcy : String
  ChrgsInfAgt : String
  DbtrEntityId : String
  DbtrAcctId : String
  DbtrAgt : String
  CdtrEntityId : String
  CdtrAcctId : String
  CdtrAgt : String
  Purp : String
deriving DecidableEq, Repr

/-- The fields of the pacs.002 (payment status) document built by
`SimpleTransactionRequest.to_pacs002`. -/
structure Pacs002Doc where
  TxTp : String
  MsgId : String
  CreDtTm : String
  OrgnlInstrId : String
  OrgnlEndToEndId : String
  TxSts : String
  ChrgsInf : List ChargeInfo
  AccptncDtTm : String
  InstgAgt : String
  InstdAgt : String
deriving DecidableEq, Repr

/-- `app/models.py` `SimpleTransactionRequest`: the simplified entry body.
Pydantic validation (amount > 0, status matching ACCC|RJCT) is
`SimpleTransactionRequest.valid` below. -/
structure SimpleTransactionRequest where
  debtor_member : String
  creditor_member : String
  amount : Rat
  currency : String := "USD"
  status : String := "ACCC"
  tenant_id : Option String := none
deriving DecidableEq, Repr

/-- The pydantic constraints on `SimpleTransactionRequest`:
`amount` has `gt=0` and `status` has pattern `ACCC` or `RJCT`. -/
def SimpleTransactionRequest.valid (r : SimpleTransactionRequest) : Prop :=
  0 < r.amount ∧ (r.status = "ACCC" ∨ r.status = "RJCT")

instance (r : SimpleTransactionRequest) : Decidable r.valid := by
  unfold SimpleTransactionRequest.valid
  infer_instance

/-- Python `x or fallback` on an optional string: `None` and the empty
string are falsy. -/
def pyOr (x : Option String) (fallback : String) : String :=
  match x with
  | none => fallback
  | some s => if s = "" then fallback else s

/-- `end_to_end_id or uuid4().hex`: use the given id when it is truthy,
otherwise draw the next value from the uuid supply. -/
def freshOr (given : Option String) (u : Nat → String) (k : Nat) : String × Nat :=
  match given with
  | none => (u k, k + 1)
  | some s => if s = "" then (u k, k + 1) else (s, k)

/-- `SimpleTransactionRequest.resolved_tenant` from `app/models.py`:
`self.tenant_id or fallback`. -/
def SimpleTransactionRequest.resolved_tenant
    (r : SimpleTransactionRequest) (fallback : String) : String :=
  pyOr r.tenant_id fallback

/-- `SimpleTransactionRequest.to_pacs008` from `app/models.py`.  The
tenant id is deliberately absent from the document body (the upstream
schema forbids it), hence the unused argument.  uuid4 draws happen in the
source's evaluation order: the optional EndToEndId first, then the four
entity/account ids, then `GrpHdr.MsgId`, then `PmtId.InstrId`.  Returns
the document and the advanced uuid-supply index. -/
def SimpleTransactionRequest.to_pacs008 (r : SimpleTransactionRequest)
    (tenant_id : String) (end_to_end_id : Option String) (now : String)
    (u : Nat → String) (k : Nat) : Pacs008Doc × Nat :=
  let _ := tenant_id
  let e2e := freshOr end_to_end_id u k
  let e2e_id := e2e.1
  let k1 := e2e.2
  let debtor_entity_id := u k1
  let creditor_entity_id := u (k1 + 1)
  let debtor_acct_id := u (k1 + 2)
  let creditor_acct_id := u (k1 + 3)
  (⟨"pacs.008.001.10",
    u (k1 + 4), now, 1, "CLRG",
    u (k1 + 5), e2e_id,
    r.amount, r.currency,
    r.amount, r.currency,
    "1", "DEBT",
    0, r.currency, r.debtor_member,
    debtor_entity_id, debtor_acct_id, r.debtor_member,
    creditor_entity_id, creditor_acct_id, r.creditor_member,
    "MP2P"⟩, k1 + 6)

/-- `SimpleTransactionRequest.to_pacs002` from `app/models.py`.  uuid4
draws in source order: `msg_id` first, then the optional EndToEndId, then
`OrgnlInstrId`.  The charges array is the fixed three-entry shape:
[real amount tagged to the debtor, zero tagged to the debtor, zero tagged
to the creditor]. -/
def SimpleTransactionRequest.to_pacs002 (r : SimpleTransactionRequest)
    (tenant_id : String) (end_to_end_id : Option String) (now : String)
    (u : Nat → String) (k : Nat) : Pacs002Doc × Nat :=
  let _ := tenant_id
  let msg_id := u k
  let e2e := freshOr end_to_end_id u (k + 1)
  let e2e_id := e2e.1
  let k1 := e2e.2
  (⟨"pacs.002.001.12",
    msg_id, now,
    u k1, e2e_id, r.status,
    [⟨r.amount, r.currency, r.debtor_member⟩,
     ⟨0, r.currency, r.debtor_member⟩,
     ⟨0, r.currency, r.creditor_member⟩],
    now,
    r.debtor_member, r.creditor_member⟩, k1 + 1)

/-- Body returned by the upstream TMS: either the parsed 2xx JSON body
(kept opaque as a string) or the error dict the handler builds from a
non-2xx response text. -/
inductive TmsReply where
  | body (s : String)
  | errorOf (text : String)
deriving DecidableEq, Repr

/-- `app/models.py` `TransactionSubmitResponse`. -/
structure TransactionSubmitResponse where
  success : Bool
  message : String
  msg_id : String
  end_to_end_id : Option String := none
  pacs008_msg_id : Option String := none
  tms_response : Option TmsReply := none
deriving DecidableEq, Repr

/-- Outcome of one `_forward_to_tms` call, as the handler observes it:
a 2xx JSON body, an `httpx.HTTPStatusError` raised by
`raise_for_status()`, or an `httpx.RequestError` (transport failure). -/
inductive ForwardOutcome where
  | ok (body : String)
  | httpStatusError (code : Nat) (text : String)
  | requestError (msg : String)
deriving DecidableEq, Repr

/-- Whether the forward failed (transport error or non-2xx). -/
def ForwardOutcome.isErr : ForwardOutcome → Bool
  | .ok _ => false
  | .httpStatusError _ _ => true
  | .requestError _ => true

/-- One outbound POST to the TMS, recording which document was sent. -/
inductive Forward where
  | p8 (d : Pacs008Doc)
  | p2 (d : Pacs002Doc)
deriving DecidableEq, Repr

/-- What one run of the `evaluate_simple` handler did: the response it
returned, the pacs.008 document it built, the pacs.002 document when the
handler reached step 2, and the forwards it issued in order. -/
structure SubmitTrace where
  response : TransactionSubmitResponse
  pacs008 : Pacs008Doc
  pacs002 : Option Pacs002Doc
  forwards : List Forward
deriving Repr

/-- `evaluate_simple` from `app/routes/entry.py`.  `o1` is what the
upstream does with the pacs.008 forward and `o2` what it would do with
the pacs.002 forward; `baseUrl` is `settings.tms_base_url` (used in the
transport-error message) and `defaultTenant` is
`settings.default_tenant_id`.  The handler draws one shared EndToEndId
(`u 0`), builds and forwards pacs.008; on failure it returns immediately
with pacs.008's MsgId and never builds pacs.002; on success it builds
pacs.002 with the same EndToEndId and forwards it.  No return statement
populates `end_to_end_id` or `pacs008_msg_id`. -/
def evaluate_simple (body : SimpleTransactionRequest)
    (defaultTenant baseUrl now : String) (u : Nat → String)
    (o1 o2 : ForwardOutcome) : SubmitTrace :=
  let tenant := body.resolved_tenant defaultTenant
  let end_to_end_id := u 0
  let p8r := body.to_pacs008 tenant (some end_to_end_id) now u 1
  let pacs008 := p8r.1
  let pacs008_msg_id := pacs008.MsgId
  match o1 with
  | .httpStatusError code text =>
      ⟨⟨false, "TMS pacs.008 error: " ++ toString code, pacs008_msg_id,
        none, none, some (.errorOf text)⟩,
       pacs008, none, [.p8 pacs008]⟩
  | .requestError msg =>
      ⟨⟨false, "Cannot reach TMS at " ++ baseUrl ++ ": " ++ msg, pacs008_msg_id,
        none, none, none⟩,
       pacs008, none, [.p8 pacs008]⟩
  | .ok _ =>
      let p2r := body.to_pacs002 tenant (some end_to_end_id) now u p8r.2
      let pacs002 := p2r.1
      let msg_id := pacs002.MsgId
      match o2 with
      | .ok b =>
          ⟨⟨true, "Transaction submitted to Tazama pipeline", msg_id,
            none, none, some (.body b)⟩,
           pacs008, some pacs002, [.p8 pacs008, .p2 pacs002]⟩
      | .httpStatusError code text =>
          ⟨⟨false, "TMS pacs.002 error: " ++ toString code, msg_id,
            none, none, some (.errorOf text)⟩,
           pacs008, some pacs002, [.p8 pacs008, .p2 pacs002]⟩
      | .requestError msg =>
          ⟨⟨false, "Cannot reach TMS at " ++ baseUrl ++ ": " ++ msg, msg_id,
            none, none, none⟩,
           pacs008, some pacs002, [.p8 pacs008, .p2 pacs002]⟩

/-- The evaluation JSON document stored per row, restricted to the paths
the queries project: `transactionID`, `report.status`,
`report.evaluationID`, `report.timestamp`, `report.tadpResult.prcgTm`,
`report.tadpResult.typologyResult` (the last kept opaque). -/
structure EvalDoc where
  transactionID : String
  status : String
  evaluationID : String
  timestamp : String
  prcgTm : String
  typologyResult : String
deriving DecidableEq, Repr

/-- A row of the evaluation table: `messageid` (modelled as a natural
number in the order `ORDER BY "messageid"` sorts by), `tenantid`, and
the `evaluation` JSONB document. -/
structure EvalRow where
  messageid : Nat
  tenantid : String
  evaluation : EvalDoc
deriving DecidableEq, Repr

/-- The evaluation database: the base tables of the public schema (what
`information_schema.tables` lists) and, per table name, its rows. -/
structure EvalDB where
  tables : List String
  rows : String → List EvalRow

/-- The process-wide cache of `app/database.py`:
`_eval_table_name` and `_eval_table_found` (the latter is set only when
a real table was found). -/
structure EvalCache where
  name : Option String
  found : Bool
deriving DecidableEq, Repr

/-- The cache state at process start: nothing discovered yet. -/
def initCache : EvalCache := ⟨none, false⟩

/-- The fixed ordered candidate names `_discover_eval_table` tries. -/
def evalCandidates : List String :=
  ["evaluationresult", "evaluationresults", "evaluation", "evaluations", "results"]

/-- `_discover_eval_table` from `app/database.py`, as a function of the
list of base tables in the public schema: return `none` when no tables
exist, otherwise the first matching candidate name, otherwise the sole
table when exactly one exists, otherwise the fallback `"evaluation"`. -/
def _discover_eval_table (tables : List String) : Option String :=
  match tables with
  | [] => none
  | t :: ts =>
    match evalCandidates.find? (fun c => (t :: ts).contains c) with
    | some c => some c
    | none => if ts = [] then some t else some "evaluation"

/-- `_get_eval_table` from `app/database.py`, with the module-level
globals made an explicit state.  Returns the resolved name, the new
cache state, and whether the discovery query ran against the datastore.
When `_eval_table_found` is set the cached name is returned without
querying; otherwise discovery (re-)runs and `found` is set only when a
table was actually found. -/
def _get_eval_table (st : EvalCache) (tables : List String) :
    Option String × EvalCache × Bool :=
  if st.found then (st.name, st, false)
  else
    let n := _discover_eval_table tables
    (n, ⟨n, n.isSome⟩, true)

/-- `get_evaluation_by_msg_id` from `app/database.py`: resolve the table,
then fetch the first row matching `messageid` and `tenantid` and return
its `evaluation` document.  A failed connection or any query error
(`Except.error`) is caught and yields `none`; an unresolved table yields
`none`.  Returns the result and the cache state after the call. -/
def get_evaluation_by_msg_id (conn : Except Unit EvalDB) (st : EvalCache)
    (msg_id : Nat) (tenant_id : String) : Option EvalDoc × EvalCache :=
  match conn with
  | .error _ => (none, st)
  | .ok db =>
    let r := _get_eval_table st db.tables
    match r.1 with
    | none => (none, r.2.1)
    | some tbl =>
      (((db.rows tbl).find?
          (fun row => row.messageid == msg_id && row.tenantid == tenant_id)).map
        EvalRow.evaluation, r.2.1)

/-- The status condition `list_evaluations` appends to its WHERE clause:
only when `status_filter` is truthy AND one of `ALRT`/`NALT` does the
query compare `evaluation.report.status` to it; otherwise no condition
is added. -/
def statusCond (status_filter : Option String) (row : EvalRow) : Bool :=
  match status_filter with
  | none => true
  | some s =>
    if (s != "") && ((s == "ALRT") || (s == "NALT")) then
      row.evaluation.status == s
    else true

/-- The projection `list_evaluations` SELECTs: the `messageid` row
identifier plus fields extracted from the evaluation document. -/
structure EvalListRow where
  msg_id : Nat
  transaction_id : String
  status : String
  evaluation_id : String
  evaluated_at : String
  processing_time_ns : String
  typology_results : String
deriving DecidableEq, Repr

/-- Projection of one stored row to the SELECTed columns. -/
def projectRow (r : EvalRow) : EvalListRow :=
  ⟨r.messageid, r.evaluation.transactionID, r.evaluation.status,
   r.evaluation.evaluationID, r.evaluation.timestamp,
   r.evaluation.prcgTm, r.evaluation.typologyResult⟩

/-- The `ORDER BY "messageid" DESC` order: later (larger) message ids
first. -/
def evalDescRel (a b : EvalRow) : Prop := b.messageid ≤ a.messageid

instance : DecidableRel evalDescRel :=
  fun a b => Nat.decLe b.messageid a.messageid

instance : IsTotal EvalRow evalDescRel :=
  ⟨fun a b => Nat.le_total b.messageid a.messageid⟩

instance : IsTrans EvalRow evalDescRel :=
  ⟨fun _ _ _ h1 h2 => Nat.le_trans h2 h1⟩

/-- `list_evaluations` from `app/database.py`: filter the resolved
table's rows by tenant (and by status when the filter is valid), sort by
`messageid` descending, apply OFFSET then LIMIT, and project the
SELECTed columns.  Errors and an unresolved table degrade to `[]`.
Returns the rows and the cache state after the call. -/
def list_evaluations (conn : Except Unit EvalDB) (st : EvalCache)
    (tenant_id : String) (limit : Nat) (offset : Nat)
    (status_filter : Option String) : List EvalListRow × EvalCache :=
  match conn with
  | .error _ => ([], st)
  | .ok db =>
    let r := _get_eval_table st db.tables
    match r.1 with
    | none => ([], r.2.1)
    | some tbl =>
      let kept := (db.rows tbl).filter
        (fun row => (row.tenantid == tenant_id) && statusCond status_filter row)
      let sorted := List.insertionSort evalDescRel kept
      (((sorted.drop offset).take limit).map projectRow, r.2.1)

/-- The aggregate returned by `count_evaluations`. -/
structure Counts where
  total : Nat
  alerts : Nat
  no_alerts : Nat
deriving DecidableEq, Repr

/-- `count_evaluations` from `app/database.py`: COUNT(*) plus filtered
counts of `ALRT` and `NALT` rows for the tenant.  The `status_filter`
argument is accepted but never used in the SQL.  Errors and an
unresolved table degrade to all-zero counts.  Returns the counts and the
cache state after the call. -/
def count_evaluations (conn : Except Unit EvalDB) (st : EvalCache)
    (tenant_id : String) (status_filter : Option String) : Counts × EvalCache :=
  let _ := status_filter
  match conn with
  | .error _ => (⟨0, 0, 0⟩, st)
  | .ok db =>
    let r := _get_eval_table st db.tables
    match r.1 with
    | none => (⟨0, 0, 0⟩, r.2.1)
    | some tbl =>
      let mine := (db.rows tbl).filter (fun row => row.tenantid == tenant_id)
      (⟨mine.length,
        (mine.filter (fun row => row.evaluation.status == "ALRT")).length,
        (mine.filter (fun row => row.evaluation.status == "NALT")).length⟩,
       r.2.1)

/-- A row of the event-history transaction table (only `tenantid` is
queried). -/
structure EventRow where
  tenantid : String
deriving DecidableEq, Repr

/-- The event-history database: base tables plus rows per table. -/
structure EventDB where
  tables : List String
  rows : String → List EventRow

/-- The candidate names `count_transactions` tries for the transaction
table. -/
def txCandidates : List String :=
  ["transactionhistory", "transaction_history", "transaction", "transactions"]

/-- The table-name choice inside `count_transactions`: first matching
candidate; on the for-else path the sole table when exactly one exists;
otherwise the default `"transaction"`. -/
def resolveTxTable (tables : List String) : String :=
  match txCandidates.find? (fun c => tables.contains c) with
  | some c => c
  | none => if tables.length = 1 then tables.headD "transaction" else "transaction"

/-- `count_transactions` from `app/database.py`: runs the
table-discovery query on EVERY call (it keeps no cache), returns 0 when
no tables exist, otherwise counts the tenant's rows in the chosen table.
Errors degrade to 0.  The second component records whether the discovery
query ran against the datastore. -/
def count_transactions (conn : Except Unit EventDB) (tenant_id : String) :
    Nat × Bool :=
  match conn with
  | .error _ => (0, false)
  | .ok db =>
    if db.tables = [] then (0, true)
    else
      let tbl := resolveTxTable db.tables
      (((db.rows tbl).filter (fun row => row.tenantid == tenant_id)).length, true)

/-- The discovery algorithm as §4.3 of the spec words it, for comparison
with the source's `_discover_eval_table`: (1) list the base tables;
(2) none exist → `none`; (3) first match from the fixed ordered
candidate list; (4) exactly one table → that table; (5) fall back to the
fixed default guess. -/
def discover_eval_table_spec (tables : List String) : Option String :=
  if tables.isEmpty then none
  else
    match evalCandidates.find? (fun c => tables.contains c) with
    | some c => some c
    | none => if tables.length = 1 then tables.head? else some "evaluation"

/-- A five-row fixture for tenant `t1`: message ids 1..5 (stored
unsorted), statuses 3 × ALRT and 2 × NALT. -/
def fixRow (i : Nat) (st : String) : EvalRow :=
  ⟨i, "t1", ⟨"tx" ++ toString i, st, "ev" ++ toString i, "ts", "9", "tr"⟩⟩

/-- The fixture rows in arbitrary storage order. -/
def fixRows : List EvalRow :=
  [fixRow 3 "ALRT", fixRow 1 "ALRT", fixRow 5 "NALT", fixRow 2 "ALRT", fixRow 4 "NALT"]

/-- A fixture evaluation database holding exactly the table
`evaluation` with the five fixture rows. -/
def fixDB : EvalDB :=
  ⟨["evaluation"], fun t => if t = "evaluation" then fixRows else []⟩

/-- A fixture event-history database with one `transaction` table
holding a single row for tenant `t1`. -/
def fixEventDB : EventDB :=
  ⟨["transaction"], fun t => if t = "transaction" then [⟨"t1"⟩] else []⟩

/-- A concrete valid simplified request used by witnesses. -/
def req0 : SimpleTransactionRequest :=
  ⟨"dfsp001", "dfsp002", 100, "USD", "ACCC", none⟩

/-!  Theorems settling the claims.  -/

/-- C9: the first resolution for the evaluation dataset follows exactly
the spec's decision order — the source's `_discover_eval_table` agrees
with the step-by-step algorithm of §4.3 on every table list: empty →
`none`; else first present candidate from the fixed ordered list; else
the sole table when exactly one exists; else the default
`"evaluation"`. -/
theorem discover_eval_table_follows_spec_order (tables : List String) :
    _discover_eval_table tables = discover_eval_table_spec tables := by
  cases tables with
  | nil => rfl
  | cons t ts =>
    cases h : evalCandidates.find? (fun c => (t :: ts).contains c) with
    | none =>
      cases ts with
      | nil => simp [_discover_eval_table, discover_eval_table_spec, h]
      | cons t2 ts2 => simp [_discover_eval_table, discover_eval_table_spec, h]
    | some c => simp [_discover_eval_table, discover_eval_table_spec, h]

/-- C1: for every valid request and every (nonempty, as `uuid4().hex`
always is) correlation id passed identically to both transformer calls —
as the submit handler does — the pacs.008 `EndToEndId` and the pacs.002
`OrgnlEndToEndId` both equal that id, and the pacs.002 `ChrgsInf` array
has exactly 3 entries with amounts `[amount, 0, 0]`, the first two
tagged with the debtor member and the third with the creditor member. -/
theorem transformer_shared_e2e_and_charges (r : SimpleTransactionRequest)
    (hv : r.valid) (t1 t2 now1 now2 : String) (u1 u2 : Nat → String)
    (k1 k2 : Nat) (e2e : String) (he : e2e ≠ "") :
    (r.to_pacs008 t1 (some e2e) now1 u1 k1).1.EndToEndId = e2e ∧
    (r.to_pacs002 t2 (some e2e) now2 u2 k2).1.OrgnlEndToEndId = e2e ∧
    (r.to_pacs002 t2 (some e2e) now2 u2 k2).1.ChrgsInf.length = 3 ∧
    ((r.to_pacs002 t2 (some e2e) now2 u2 k2).1.ChrgsInf.map ChargeInfo.Amt)
      = [r.amount, 0, 0] ∧
    ((r.to_pacs002 t2 (some e2e) now2 u2 k2).1.ChrgsInf.map ChargeInfo.Agt)
      = [r.debtor_member, r.debtor_member, r.creditor_member] := by
  have _ := hv
  refine ⟨?_, ?_, ?_, ?_, ?_⟩ <;>
    simp [SimpleTransactionRequest.to_pacs008, SimpleTransactionRequest.to_pacs002,
      freshOr, he]

/-- Witness for C1 at a concrete valid request and the correlation id
`"abc123"`. -/
theorem transformer_shared_e2e_and_charges_witness :
    (req0.to_pacs008 "tn" (some "abc123") "now" (fun n => toString n) 1).1.EndToEndId
      = "abc123" ∧
    (req0.to_pacs002 "tn" (some "abc123") "now" (fun n => toString n) 7).1.OrgnlEndToEndId
      = "abc123" ∧
    (req0.to_pacs002 "tn" (some "abc123") "now" (fun n => toString n) 7).1.ChrgsInf.length
      = 3 ∧
    ((req0.to_pacs002 "tn" (some "abc123") "now" (fun n => toString n) 7).1.ChrgsInf.map
        ChargeInfo.Amt) = [req0.amount, 0, 0] ∧
    ((req0.to_pacs002 "tn" (some "abc123") "now" (fun n => toString n) 7).1.ChrgsInf.map
        ChargeInfo.Agt) = [req0.debtor_member, req0.debtor_member, req0.creditor_member] :=
  transformer_shared_e2e_and_charges req0 (by constructor <;> norm_num [req0])
    "tn" "tn" "now" "now" (fun n => toString n) (fun n => toString n) 1 7 "abc123"
    (by decide)

/-- C2: whenever the pacs.008 forward fails (transport error or non-2xx
response), the handler issues no second forward — the trace holds
exactly the one pacs.008 forward — and returns success = false with
`msg_id` equal to the pacs.008 document's MsgId. -/
theorem first_forward_failure_aborts (body : SimpleTransactionRequest)
    (dt burl now : String) (u : Nat → String) (o1 o2 : ForwardOutcome)
    (h : o1.isErr = true) :
    (evaluate_simple body dt burl now u o1 o2).response.success = false ∧
    (evaluate_simple body dt burl now u o1 o2).response.msg_id
      = (evaluate_simple body dt burl now u o1 o2).pacs008.MsgId ∧
    (evaluate_simple body dt burl now u o1 o2).forwards
      = [.p8 (evaluate_simple body dt burl now u o1 o2).pacs008] := by
  cases o1 with
  | ok b => simp [ForwardOutcome.isErr] at h
  | httpStatusError code text => refine ⟨rfl, rfl, rfl⟩
  | requestError msg => refine ⟨rfl, rfl, rfl⟩

/-- Witness for C2: a concrete run whose first forward gets HTTP 500. -/
theorem first_forward_failure_aborts_witness :
    (evaluate_simple req0 "tn" "url" "now" (fun n => toString n)
        (.httpStatusError 500 "boom") (.ok "b2")).response.success = false ∧
    (evaluate_simple req0 "tn" "url" "now" (fun n => toString n)
        (.httpStatusError 500 "boom") (.ok "b2")).response.msg_id
      = (evaluate_simple req0 "tn" "url" "now" (fun n => toString n)
          (.httpStatusError 500 "boom") (.ok "b2")).pacs008.MsgId ∧
    (evaluate_simple req0 "tn" "url" "now" (fun n => toString n)
        (.httpStatusError 500 "boom") (.ok "b2")).forwards
      = [.p8 (evaluate_simple req0 "tn" "url" "now" (fun n => toString n)
          (.httpStatusError 500 "boom") (.ok "b2")).pacs008] :=
  first_forward_failure_aborts req0 "tn" "url" "now" (fun n => toString n)
    (.httpStatusError 500 "boom") (.ok "b2") rfl

/-- C3 counterexample: a first resolution attempt that completes finding
nothing (empty dataset) is NOT terminally cached.  Concretely: the first
call on a table-less database returns `none` after running discovery;
a second call — made after a table `evaluation` has appeared — runs the
discovery query AGAIN (third component `true`) and returns
`some "evaluation"`, not the cached `none` the claim requires. -/
theorem cache_reverts_after_empty_first_check :
    (_get_eval_table initCache []).1 = none ∧
    (_get_eval_table initCache []).2.2 = true ∧
    (_get_eval_table (_get_eval_table initCache []).2.1 ["evaluation"]).2.2 = true ∧
    (_get_eval_table (_get_eval_table initCache []).2.1 ["evaluation"]).1
      = some "evaluation" ∧
    some "evaluation" ≠ (none : Option String) := by
  refine ⟨rfl, rfl, rfl, rfl, by decide⟩

/-- Any resolve on a state whose `found` flag is unset runs the
discovery query. -/
lemma get_eval_table_queries_when_not_found (st : EvalCache)
    (h : st.found = false) (tables : List String) :
    (_get_eval_table st tables).2.2 = true := by
  simp [_get_eval_table, h]

/-- C3 amended: only a resolution attempt that FOUND a table is terminal
— once `found` is set, the entry never changes and every later resolve
returns the cached name without re-querying; an attempt that found
nothing is not cached, and the next resolve re-runs the discovery query
against the datastore. -/
theorem cache_memoizes_only_found (st : EvalCache)
    (tablesF tablesE tables2 : List String) (h : st.found = true) :
    _get_eval_table st tablesF = (st.name, st, false) ∧
    ((_get_eval_table initCache tablesE).2.1.found = false →
      (_get_eval_table (_get_eval_table initCache tablesE).2.1 tables2).2.2 = true) := by
  constructor
  · simp [_get_eval_table, h]
  · intro h2
    exact get_eval_table_queries_when_not_found _ h2 tables2

/-- Witness for C3 amended: a cache that found `evaluation` is returned
unchanged without re-query, and after a first check of an empty dataset
the next resolve re-queries. -/
theorem cache_memoizes_only_found_witness :
    _get_eval_table ⟨some "evaluation", true⟩ ["other"]
      = (some "evaluation", ⟨some "evaluation", true⟩, false) ∧
    (_get_eval_table (_get_eval_table initCache []).2.1 ["evaluation"]).2.2 = true :=
  ⟨(cache_memoizes_only_found ⟨some "evaluation", true⟩ ["other"] [] ["evaluation"]
      rfl).1,
   (cache_memoizes_only_found ⟨some "evaluation", true⟩ ["other"] [] ["evaluation"]
      rfl).2 rfl⟩

/-- C4 counterexample: a run in which both forwards succeed embeds the
correlation id `"xyz"` in both documents, yet the returned outcome's
`end_to_end_id` is `none` — not the embedded id the claim requires. -/
theorem outcome_correlation_id_missing :
    (evaluate_simple req0 "tn" "url" "now" (fun _ => "xyz")
        (.ok "b1") (.ok "b2")).pacs008.EndToEndId = "xyz" ∧
    ((evaluate_simple req0 "tn" "url" "now" (fun _ => "xyz")
        (.ok "b1") (.ok "b2")).pacs002.map Pacs002Doc.OrgnlEndToEndId)
      = some "xyz" ∧
    (evaluate_simple req0 "tn" "url" "now" (fun _ => "xyz")
        (.ok "b1") (.ok "b2")).response.end_to_end_id = none ∧
    (none : Option String) ≠ some "xyz" := by
  refine ⟨rfl, rfl, rfl, by decide⟩

/-- C4 amended: when the pacs.008 forward succeeds, the outcome's
`end_to_end_id` is always `none` (no return statement populates it,
although both documents embed the shared correlation id), its `msg_id`
is the pacs.002 document's MsgId, and success is true exactly when the
second forward succeeds. -/
theorem outcome_after_first_success (body : SimpleTransactionRequest)
    (dt burl now : String) (u : Nat → String) (o1 o2 : ForwardOutcome)
    (h : o1.isErr = false) :
    (evaluate_simple body dt burl now u o1 o2).response.end_to_end_id = none ∧
    ((evaluate_simple body dt burl now u o1 o2).pacs002.map Pacs002Doc.MsgId)
      = some (evaluate_simple body dt burl now u o1 o2).response.msg_id ∧
    (evaluate_simple body dt burl now u o1 o2).response.success = !o2.isErr := by
  cases o1 with
  | ok b => cases o2 <;> exact ⟨rfl, rfl, rfl⟩
  | httpStatusError code text => simp [ForwardOutcome.isErr] at h
  | requestError msg => simp [ForwardOutcome.isErr] at h

/-- Witness for C4 amended: concrete run with a successful first forward
and a failing second forward. -/
theorem outcome_after_first_success_witness :
    (evaluate_simple req0 "tn" "url" "now" (fun n => toString n)
        (.ok "b1") (.httpStatusError 400 "bad")).response.end_to_end_id = none ∧
    ((evaluate_simple req0 "tn" "url" "now" (fun n => toString n)
        (.ok "b1") (.httpStatusError 400 "bad")).pacs002.map Pacs002Doc.MsgId)
      = some (evaluate_simple req0 "tn" "url" "now" (fun n => toString n)
          (.ok "b1") (.httpStatusError 400 "bad")).response.msg_id ∧
    (evaluate_simple req0 "tn" "url" "now" (fun n => toString n)
        (.ok "b1") (.httpStatusError 400 "bad")).response.success
      = !(ForwardOutcome.httpStatusError 400 "bad").isErr :=
  outcome_after_first_success req0 "tn" "url" "now" (fun n => toString n)
    (.ok "b1") (.httpStatusError 400 "bad") rfl

/-- C7 counterexample: the transaction (event-history) dataset is NOT
memoized.  A call against the fixture database resolves successfully
(count 1 from the discovered `transaction` table) and runs the discovery
query; since `count_transactions` holds no cache whatsoever, a
subsequent call in the same process is the very same stateless
computation and runs the discovery query again (flag `true`), violating
"no subsequent operation re-runs the discovery query". -/
theorem transaction_discovery_not_memoized :
    count_transactions (.ok fixEventDB) "t1" = (1, true) ∧
    (count_transactions (.ok fixEventDB) "t1").2 = true := by
  refine ⟨by decide, by decide⟩

/-- C7 amended: table-name resolution is memoized only for the
evaluation dataset, and only once a table has been found (no re-query
once `found` is set); the transaction dataset has no cache at all — the
discovery query runs on every reachable call. -/
theorem discovery_memoization_asymmetry (st : EvalCache) (tables : List String)
    (h : st.found = true) :
    (_get_eval_table st tables).2.2 = false ∧
    (∀ (edb : EventDB) (t : String), (count_transactions (.ok edb) t).2 = true) := by
  constructor
  · simp [_get_eval_table, h]
  · intro edb t
    by_cases he : edb.tables = [] <;> simp [count_transactions, he]

/-- Witness for C7 amended at a found cache entry and the fixture
event-history database. -/
theorem discovery_memoization_asymmetry_witness :
    (_get_eval_table ⟨some "evaluation", true⟩ ["evaluation"]).2.2 = false ∧
    (∀ (edb : EventDB) (t : String), (count_transactions (.ok edb) t).2 = true) :=
  discovery_memoization_asymmetry ⟨some "evaluation", true⟩ ["evaluation"] rfl

/-- C5: for every connection, cache state, tenant, limit/offset and
status filter the returned page is ordered by the `messageid` row
identifier descending (limit/offset applied after filtering and
sorting); over the five-row fixture, `limit=2 offset=0` returns rows
5–4 and `limit=2 offset=2` returns rows 3–2 by descending id, with no
overlapping row and no skipped row (together the pages are exactly the
top four rows of the sorted, tenant-filtered fixture). -/
theorem list_evaluations_order_and_pagination :
    (∀ (conn : Except Unit EvalDB) (st : EvalCache) (t : String)
        (lim off : Nat) (sf : Option String),
      List.Pairwise (fun a b : EvalListRow => b.msg_id ≤ a.msg_id)
        (list_evaluations conn st t lim off sf).1) ∧
    (list_evaluations (.ok fixDB) initCache "t1" 2 0 none).1
      = [projectRow (fixRow 5 "NALT"), projectRow (fixRow 4 "NALT")] ∧
    (list_evaluations (.ok fixDB) initCache "t1" 2 2 none).1
      = [projectRow (fixRow 3 "ALRT"), projectRow (fixRow 2 "ALRT")] ∧
    (∀ x ∈ (list_evaluations (.ok fixDB) initCache "t1" 2 0 none).1,
      x ∉ (list_evaluations (.ok fixDB) initCache "t1" 2 2 none).1) ∧
    (list_evaluations (.ok fixDB) initCache "t1" 2 0 none).1 ++
        (list_evaluations (.ok fixDB) initCache "t1" 2 2 none).1
      = ((List.insertionSort evalDescRel
            (fixRows.filter (fun row => row.tenantid == "t1"))).take 4).map
          projectRow := by
  refine ⟨?_, by decide, by decide, by decide, by decide⟩
  intro conn st t lim off sf
  cases conn with
  | error e => simp [list_evaluations]
  | ok db =>
    simp only [list_evaluations]
    cases h : (_get_eval_table st db.tables).1 with
    | none => simp
    | some tbl =>
      simp only []
      refine List.Pairwise.map projectRow (fun a b hr => hr) ?_
      exact List.Pairwise.sublist
        ((List.take_sublist lim _).trans (List.drop_sublist off _))
        (List.sorted_insertionSort evalDescRel _)

/-- C6 counterexample: over the fixture (3 ALRT + 2 NALT rows for the
tenant), calling the aggregate count WITH the status filter `ALRT`
still returns `{total=5, alerts=3, no_alerts=2}` — the filter is not
applied; under the claim the three counts restricted to ALRT rows would
be `{3, 3, 0}`. -/
theorem count_evaluations_filter_counterexample :
    (count_evaluations (.ok fixDB) initCache "t1" (some "ALRT")).1
      = ⟨5, 3, 2⟩ ∧
    (⟨5, 3, 2⟩ : Counts) ≠ ⟨3, 3, 0⟩ := by
  refine ⟨by decide, by decide⟩

/-- C6 amended: the aggregate count accepts a status filter but ignores
it entirely — for every filter value the result equals the unfiltered
call, which returns `{total, alerts (ALRT rows), no_alerts (NALT rows)}`
for the tenant; over the fixture with 3 ALRT and 2 NALT rows the result
is `{total=5, alerts=3, no_alerts=2}`. -/
theorem count_evaluations_filter_ignored :
    (∀ (conn : Except Unit EvalDB) (st : EvalCache) (t : String)
        (sf : Option String),
      count_evaluations conn st t sf = count_evaluations conn st t none) ∧
    (count_evaluations (.ok fixDB) initCache "t1" none).1 = ⟨5, 3, 2⟩ :=
  ⟨fun _ _ _ _ => rfl, by decide⟩

/-- C8: the four read operations never surface an error: on a failed
connection or any query failure (`Except.error`, caught by the source's
`try/except`) and likewise on an unresolvable table (a dataset with zero
tables, cache not yet found) they return their empty/zero defaults —
`none`, `[]`, `{total=0, alerts=0, no_alerts=0}` and `0`
respectively. -/
theorem read_path_degrades_to_defaults :
    (∀ (st : EvalCache) (m : Nat) (t : String),
      (get_evaluation_by_msg_id (.error ()) st m t).1 = none) ∧
    (∀ (rowsf : String → List EvalRow) (n : Option String) (m : Nat) (t : String),
      (get_evaluation_by_msg_id (.ok ⟨[], rowsf⟩) ⟨n, false⟩ m t).1 = none) ∧
    (∀ (st : EvalCache) (t : String) (lim off : Nat) (sf : Option String),
      (list_evaluations (.error ()) st t lim off sf).1 = []) ∧
    (∀ (rowsf : String → List EvalRow) (n : Option String) (t : String)
        (lim off : Nat) (sf : Option String),
      (list_evaluations (.ok ⟨[], rowsf⟩) ⟨n, false⟩ t lim off sf).1 = []) ∧
    (∀ (st : EvalCache) (t : String) (sf : Option String),
      (count_evaluations (.error ()) st t sf).1 = ⟨0, 0, 0⟩) ∧
    (∀ (rowsf : String → List EvalRow) (n : Option String) (t : String)
        (sf : Option String),
      (count_evaluations (.ok ⟨[], rowsf⟩) ⟨n, false⟩ t sf).1 = ⟨0, 0, 0⟩) ∧
    (∀ t : String, (count_transactions (.error ()) t).1 = 0) ∧
    (∀ (rowsf : String → List EventRow) (t : String),
      (count_transactions (.ok ⟨[], rowsf⟩) t).1 = 0) :=
  ⟨fun _ _ _ => rfl, fun _ _ _ _ => rfl, fun _ _ _ _ _ => rfl,
   fun _ _ _ _ _ _ => rfl, fun _ _ _ => rfl, fun _ _ _ _ => rfl,
   fun _ => rfl, fun _ _ => rfl⟩

/-- C10: a status filter value other than `ALRT`/`NALT` is silently
ignored — `list_evaluations` returns exactly the rows of the unfiltered
call with the same tenant, limit and offset (it neither rejects the
value nor returns an empty result). -/
theorem invalid_status_filter_ignored (conn : Except Unit EvalDB)
    (st : EvalCache) (t : String) (lim off : Nat) (s : String)
    (h1 : s ≠ "ALRT") (h2 : s ≠ "NALT") :
    list_evaluations conn st t lim off (some s)
      = list_evaluations conn st t lim off none := by
  have e1 : (s == "ALRT") = false := beq_eq_false_iff_ne.mpr h1
  have e2 : (s == "NALT") = false := beq_eq_false_iff_ne.mpr h2
  have hfun : (fun row : EvalRow =>
        (row.tenantid == t) && statusCond (some s) row)
      = (fun row : EvalRow => (row.tenantid == t) && statusCond none row) := by
    funext row
    simp [statusCond, e1, e2]
  simp only [list_evaluations, hfun]

/-- Witness for C10 at the malformed filter value `BOGUS` over the
fixture database. -/
theorem invalid_status_filter_ignored_witness :
    list_evaluations (.ok fixDB) initCache "t1" 2 0 (some "BOGUS")
      = list_evaluations (.ok fixDB) initCache "t1" 2 0 none :=
  invalid_status_filter_ignored (.ok fixDB) initCache "t1" 2 0 "BOGUS"
    (by decide) (by decide)

end Lipana
